import Mathlib

/-!
Verification development for the drive-pilot driving-session engine.

The definitions below are a shallow embedding of the TypeScript sources:
  - `src/core/drive-sentry/session/SessionManager.ts`
  - `src/core/drive-sentry/listeners` (DrivingDetector)
  - `src/core/drive-sentry/detectors` (DriveSentry orchestrator, CarBluetoothMatcher)
  - the shared type definitions of the module.

Modelling conventions:
  - JS numbers that carry timestamps (Unix ms) are `Int`; speeds, coordinates
    and configuration thresholds are `ℚ`; trigonometric statistics
    (the haversine distance and the derived totalDistance / averageSpeed)
    are `ℝ`, since the code computes them with `Math.sin`/`Math.cos`/etc.
  - `Date` values are their millisecond epoch value (`Int`); a nullable `Date`
    is `Option Int`.  A JS `Date` object is truthy whenever it is non-null,
    which is why nullable dates are tested with `Option` matches, while the
    `number | null` fields of the detector are tested with `isFalsyTime`
    (both `null` and `0` are falsy in JS).
  - JS strings are `String`; Bluetooth device names are code-point lists
    (`List Nat`) so that the case-insensitive regex matching of
    CarBluetoothMatcher can be modelled by ASCII case folding.
  - `throw new Error(msg)` is `Except.error msg`; `Date.now()` and the
    generated session id are explicit `now` / `sid` arguments.
-/

/-- Session status, from the shared type definitions. -/
inductive SessionStatus where
  | active
  | paused
  | completed
  deriving DecidableEq, Repr

/-- A location sample, from the shared type definitions (`LocationData`). -/
structure LocationData where
  latitude : ℚ
  longitude : ℚ
  altitude : Option ℚ
  accuracy : Option ℚ
  speed : Option ℚ
  heading : Option ℚ
  timestamp : Int
  deriving DecidableEq, Repr

/-- What caused a session to start or end (`SessionTrigger`). -/
inductive SessionTrigger where
  | bluetooth (deviceId : String) (deviceName : String)
  | gps (location : LocationData)
  | manual
  deriving DecidableEq, Repr

/-- A driving session record (`DriveSession`). -/
structure DriveSession where
  id : String
  startTime : Int
  endTime : Option Int
  status : SessionStatus
  startTrigger : SessionTrigger
  endTrigger : Option SessionTrigger
  totalDistance : ℝ
  totalDuration : ℚ
  averageSpeed : ℝ
  maxSpeed : ℚ
  waypointCount : Nat

/-- A waypoint: a location sample plus ordinal id and owning session. -/
structure Waypoint extends LocationData where
  id : Nat
  sessionId : String

/-- The mutable fields of the SessionManager singleton. -/
structure SMState where
  currentSession : Option DriveSession
  waypoints : List Waypoint

namespace SessionManager

/-- The state of a freshly constructed SessionManager. -/
def smInit : SMState := { currentSession := none, waypoints := [] }

/-- `isSessionActive`: a session exists and is not completed. -/
def isSessionActive (st : SMState) : Bool :=
  match st.currentSession with
  | none => false
  | some s => decide (s.status ≠ SessionStatus.completed)

/-- The session record built by `startSession` (id and start time are the
generated id and `Date.now()` of the call, passed explicitly). -/
def mkSession (trigger : SessionTrigger) (sid : String) (now : Int) : DriveSession :=
  { id := sid
    startTime := now
    endTime := none
    status := SessionStatus.active
    startTrigger := trigger
    endTrigger := none
    totalDistance := 0
    totalDuration := 0
    averageSpeed := 0
    maxSpeed := 0
    waypointCount := 0 }

/-- `startSession`: throws if a non-completed session exists, otherwise
installs a fresh active session and clears the waypoint list. -/
def startSession (st : SMState) (trigger : SessionTrigger) (sid : String) (now : Int) :
    Except String (DriveSession × SMState) :=
  match st.currentSession with
  | some s =>
      if s.status ≠ SessionStatus.completed then
        Except.error ("Cannot start new session while one is active")
      else
        Except.ok (mkSession trigger sid now,
          { currentSession := some (mkSession trigger sid now), waypoints := [] })
  | none =>
      Except.ok (mkSession trigger sid now,
        { currentSession := some (mkSession trigger sid now), waypoints := [] })

/-- `pauseSession`: only an active session can be paused. -/
def pauseSession (st : SMState) : Except String SMState :=
  match st.currentSession with
  | some s =>
      if s.status = SessionStatus.active then
        Except.ok { st with currentSession := some { s with status := SessionStatus.paused } }
      else
        Except.error ("No active session to pause")
  | none => Except.error ("No active session to pause")

/-- `resumeSession`: only a paused session can be resumed. -/
def resumeSession (st : SMState) : Except String SMState :=
  match st.currentSession with
  | some s =>
      if s.status = SessionStatus.paused then
        Except.ok { st with currentSession := some { s with status := SessionStatus.active } }
      else
        Except.error ("No paused session to resume")
  | none => Except.error ("No paused session to resume")

/-- `addWaypoint`: silently ignored unless the session status is exactly
`active`; otherwise appends a waypoint with ordinal `count + 1` and updates
`maxSpeed` when the (truthy, i.e. non-null and non-zero) speed exceeds it. -/
def addWaypoint (st : SMState) (location : LocationData) : SMState :=
  match st.currentSession with
  | none => st
  | some s =>
      if s.status = SessionStatus.active then
        let w : Waypoint :=
          { toLocationData := location
            id := st.waypoints.length + 1
            sessionId := s.id }
        let s2 :=
          match location.speed with
          | some v => if v ≠ 0 ∧ s.maxSpeed < v then { s with maxSpeed := v } else s
          | none => s
        { currentSession := some s2, waypoints := st.waypoints ++ [w] }
      else st

end SessionManager

/-- The two-argument arctangent, mirroring `Math.atan2` (note: the reals have
no signed zero, so the `x = 0` column collapses JS's `±0` distinction). -/
noncomputable def atan2 (y x : ℝ) : ℝ :=
  if 0 < x then Real.arctan (y / x)
  else if x < 0 then
    (if 0 ≤ y then Real.arctan (y / x) + Real.pi else Real.arctan (y / x) - Real.pi)
  else
    (if 0 < y then Real.pi / 2 else if y < 0 then -(Real.pi / 2) else 0)

/-- `haversineDistance` of `SessionManager.ts`: great-circle distance in
meters on a sphere of mean Earth radius 6371000 m. -/
noncomputable def haversineDistance (coord1 coord2 : LocationData) : ℝ :=
  let R : ℝ := 6371000
  let lat1 := ((coord1.latitude : ℝ) * Real.pi) / 180
  let lat2 := ((coord2.latitude : ℝ) * Real.pi) / 180
  let deltaLat := (((coord2.latitude - coord1.latitude : ℚ) : ℝ) * Real.pi) / 180
  let deltaLon := (((coord2.longitude - coord1.longitude : ℚ) : ℝ) * Real.pi) / 180
  let a :=
    Real.sin (deltaLat / 2) * Real.sin (deltaLat / 2) +
      Real.cos lat1 * Real.cos lat2 * Real.sin (deltaLon / 2) * Real.sin (deltaLon / 2)
  let c := 2 * atan2 (Real.sqrt a) (Real.sqrt (1 - a))
  R * c

namespace SessionManager

/-- The distance-accumulation loop of `calculateStats`
(`for i in 1..n: total += haversine(w[i-1], w[i])`). -/
noncomputable def sumConsecDist : List Waypoint → ℝ
  | [] => 0
  | [_] => 0
  | a :: b :: rest =>
      haversineDistance a.toLocationData b.toLocationData + sumConsecDist (b :: rest)

/-- `calculateStats`: no-op with fewer than two waypoints; otherwise fills
duration, distance and (when the duration is positive) average speed. -/
noncomputable def calculateStats (s : DriveSession) (ws : List Waypoint) : DriveSession :=
  if ws.length < 2 then s
  else
    let duration : ℚ :=
      match s.endTime with
      | some e => ((e - s.startTime : ℤ) : ℚ) / 1000
      | none => 0
    let dist : ℝ := sumConsecDist ws
    let s1 := { s with totalDuration := duration, totalDistance := dist }
    if 0 < duration then { s1 with averageSpeed := dist / ((duration : ℚ) : ℝ) } else s1

/-- `endSession`: fails only when no session exists; completes the session,
computes statistics, returns the completed copy and clears all state. -/
noncomputable def endSession (st : SMState) (endTrigger : SessionTrigger) (now : Int) :
    Except String (DriveSession × SMState) :=
  match st.currentSession with
  | none => Except.error ("No session to end")
  | some s =>
      let s1 : DriveSession :=
        { s with
          endTime := some now
          endTrigger := some endTrigger
          status := SessionStatus.completed
          waypointCount := st.waypoints.length }
      let s2 := calculateStats s1 st.waypoints
      Except.ok (s2, { currentSession := none, waypoints := [] })

end SessionManager

/-- One call against the SessionManager API, with the call-time data
(`Date.now()`, generated id, arguments) recorded in the operation. -/
inductive SMOp where
  | startOp (trigger : SessionTrigger) (sid : String) (now : Int)
  | pauseOp
  | resumeOp
  | endOp (trigger : SessionTrigger) (now : Int)
  | addOp (location : LocationData)

/-- Whether an operation is an `endSession` call. -/
def SMOp.isEndOp : SMOp → Bool
  | SMOp.endOp _ _ => true
  | _ => false

/-- Whether an operation is a `startSession` call. -/
def SMOp.isStartOp : SMOp → Bool
  | SMOp.startOp _ _ _ => true
  | _ => false

/-- Apply one operation; a thrown error leaves the manager state unchanged. -/
noncomputable def applyOp (st : SMState) (op : SMOp) : SMState :=
  match op with
  | SMOp.startOp trigger sid now =>
      match SessionManager.startSession st trigger sid now with
      | Except.ok (_, st') => st'
      | Except.error _ => st
  | SMOp.pauseOp =>
      match SessionManager.pauseSession st with
      | Except.ok st' => st'
      | Except.error _ => st
  | SMOp.resumeOp =>
      match SessionManager.resumeSession st with
      | Except.ok st' => st'
      | Except.error _ => st
  | SMOp.endOp trigger now =>
      match SessionManager.endSession st trigger now with
      | Except.ok (_, st') => st'
      | Except.error _ => st
  | SMOp.addOp location => SessionManager.addWaypoint st location

/-- Run a sequence of SessionManager operations. -/
noncomputable def runOps (st : SMState) (ops : List SMOp) : SMState :=
  ops.foldl applyOp st

/-- The manager state right after a successful `startSession`. -/
def startedState (trigger : SessionTrigger) (sid : String) (now : Int) : SMState :=
  { currentSession := some (SessionManager.mkSession trigger sid now), waypoints := [] }

/-- How many non-completed sessions the manager state holds. -/
def nonCompletedCount (st : SMState) : Nat :=
  match st.currentSession with
  | none => 0
  | some s => if s.status ≠ SessionStatus.completed then 1 else 0

/-- Non-`endSession` operations keep `isSessionActive` true. -/
theorem isSessionActive_preserved (st : SMState) (op : SMOp)
    (hop : op.isEndOp = false) (hact : SessionManager.isSessionActive st = true) :
    SessionManager.isSessionActive (applyOp st op) = true := by
  obtain ⟨sess, hsess⟩ : ∃ s, st.currentSession = some s := by
    cases h : st.currentSession with
    | none => simp [SessionManager.isSessionActive, h] at hact
    | some s => exact ⟨s, rfl⟩
  have hns : sess.status ≠ SessionStatus.completed := by
    simp [SessionManager.isSessionActive, hsess] at hact
    exact hact
  cases op with
  | startOp trigger sid now =>
      simp only [applyOp, SessionManager.startSession, hsess]
      rw [if_pos hns]
      simpa [SessionManager.isSessionActive, hsess] using hact
  | pauseOp =>
      simp only [applyOp, SessionManager.pauseSession, hsess]
      by_cases hs : sess.status = SessionStatus.active
      · rw [if_pos hs]
        simp [SessionManager.isSessionActive]
      · rw [if_neg hs]
        simpa [SessionManager.isSessionActive, hsess] using hact
  | resumeOp =>
      simp only [applyOp, SessionManager.resumeSession, hsess]
      by_cases hs : sess.status = SessionStatus.paused
      · rw [if_pos hs]
        simp [SessionManager.isSessionActive]
      · rw [if_neg hs]
        simpa [SessionManager.isSessionActive, hsess] using hact
  | endOp trigger now => simp [SMOp.isEndOp] at hop
  | addOp location =>
      simp only [applyOp, SessionManager.addWaypoint, hsess]
      by_cases hs : sess.status = SessionStatus.active
      · rw [if_pos hs]
        cases hv : location.speed with
        | none => simp [SessionManager.isSessionActive, hs]
        | some v =>
            by_cases hgt : v ≠ 0 ∧ sess.maxSpeed < v
            · simp [SessionManager.isSessionActive, hgt, hs]
            · simp only [hgt, if_neg]
              simpa [SessionManager.isSessionActive, hgt] using hns
      · rw [if_neg hs]
        simpa [SessionManager.isSessionActive, hsess] using hact

/-- An end-free run of operations keeps `isSessionActive` true. -/
theorem isSessionActive_preserved_run (ops : List SMOp)
    (hops : ∀ op ∈ ops, op.isEndOp = false) :
    ∀ st : SMState, SessionManager.isSessionActive st = true →
      SessionManager.isSessionActive (runOps st ops) = true := by
  induction ops with
  | nil => intro st h; simpa [runOps] using h
  | cons op rest ih =>
      intro st h
      have h1 := isSessionActive_preserved st op (hops op (by simp)) h
      have hrest : ∀ o ∈ rest, o.isEndOp = false := fun o ho => hops o (by simp [ho])
      simpa [runOps] using ih hrest (applyOp st op) h1

/-- C1: the SessionManager holds at most one non-completed session at every
point of every run; `startSession` fails with the InvalidState error exactly
when a non-completed session exists; and once a `startSession` has succeeded,
every further `startSession` fails until an `endSession` intervenes. -/
theorem c1_single_active_session (ops ops' : List SMOp) (st : SMState)
    (trigger trigger' : SessionTrigger) (sid sid' : String) (now now' : Int)
    (hst : SessionManager.isSessionActive st = false)
    (hops' : ∀ op ∈ ops', op.isEndOp = false) :
    nonCompletedCount (runOps SessionManager.smInit ops) ≤ 1 ∧
    (∀ st2 : SMState,
      (SessionManager.startSession st2 trigger sid now =
          Except.error ("Cannot start new session while one is active")) ↔
        SessionManager.isSessionActive st2 = true) ∧
    (∃ s1 st1, SessionManager.startSession st trigger sid now = Except.ok (s1, st1) ∧
      SessionManager.startSession (runOps st1 ops') trigger' sid' now' =
        Except.error ("Cannot start new session while one is active")) := by
  refine ⟨?_, ?_, ?_⟩
  · cases h : (runOps SessionManager.smInit ops).currentSession with
    | none => simp [nonCompletedCount, h]
    | some s =>
        by_cases hs : s.status ≠ SessionStatus.completed <;>
          simp [nonCompletedCount, h, hs]
  · intro st2
    constructor
    · intro herr
      cases h : st2.currentSession with
      | none => simp [SessionManager.startSession, h] at herr
      | some s =>
          by_cases hs : s.status ≠ SessionStatus.completed
          · simp [SessionManager.isSessionActive, h, hs]
          · simp [SessionManager.startSession, h, hs] at herr
    · intro hact
      obtain ⟨s, hsome⟩ : ∃ s, st2.currentSession = some s := by
        cases h : st2.currentSession with
        | none => simp [SessionManager.isSessionActive, h] at hact
        | some s => exact ⟨s, rfl⟩
      have hns : s.status ≠ SessionStatus.completed := by
        simp [SessionManager.isSessionActive, hsome] at hact
        exact hact
      simp [SessionManager.startSession, hsome, hns]
  · have hok : SessionManager.startSession st trigger sid now =
        Except.ok (SessionManager.mkSession trigger sid now, startedState trigger sid now) := by
      cases h : st.currentSession with
      | none => simp [SessionManager.startSession, startedState, h]
      | some s =>
          have hs : ¬ s.status ≠ SessionStatus.completed := by
            intro hne
            simp [SessionManager.isSessionActive, h, hne] at hst
          simp [SessionManager.startSession, startedState, h, hs]
    refine ⟨_, _, hok, ?_⟩
    have hact1 : SessionManager.isSessionActive (startedState trigger sid now) = true := by
      simp [SessionManager.isSessionActive, startedState, SessionManager.mkSession]
    have hact2 := isSessionActive_preserved_run ops' hops' _ hact1
    obtain ⟨s, hsome⟩ : ∃ s,
        (runOps (startedState trigger sid now) ops').currentSession = some s := by
      cases h : (runOps (startedState trigger sid now) ops').currentSession with
      | none => rw [SessionManager.isSessionActive, h] at hact2; simp at hact2
      | some s => exact ⟨s, rfl⟩
    have hns : s.status ≠ SessionStatus.completed := by
      rw [SessionManager.isSessionActive, hsome] at hact2
      simpa using hact2
    simp [SessionManager.startSession, hsome, hns]

/-- Witness for C1 at a concrete run: the empty starting state is inactive
and the intermediate operations `pause; resume; add` contain no end. -/
theorem c1_single_active_session_witness :
    SessionManager.isSessionActive SessionManager.smInit = false ∧
    (nonCompletedCount (runOps SessionManager.smInit []) ≤ 1 ∧
      (∀ st2 : SMState,
        (SessionManager.startSession st2 SessionTrigger.manual "s1" 0 =
            Except.error ("Cannot start new session while one is active")) ↔
          SessionManager.isSessionActive st2 = true) ∧
      (∃ s1 st1,
        SessionManager.startSession SessionManager.smInit SessionTrigger.manual "s1" 0 =
          Except.ok (s1, st1) ∧
        SessionManager.startSession (runOps st1 [SMOp.pauseOp, SMOp.resumeOp])
            SessionTrigger.manual "s2" 5 =
          Except.error ("Cannot start new session while one is active"))) :=
  ⟨by decide,
    c1_single_active_session [] [SMOp.pauseOp, SMOp.resumeOp] SessionManager.smInit
      SessionTrigger.manual SessionTrigger.manual "s1" "s2" 0 5 (by decide)
      (by intro op hop; fin_cases hop <;> decide)⟩

/-- The four movement-classification states of the DrivingDetector. -/
inductive DrivingDetectorState where
  | idle
  | detecting
  | driving
  | stationary
  deriving DecidableEq, Repr

/-- Detection thresholds (`DrivingConditions`). -/
structure DrivingConditions where
  minSpeed : ℚ
  minDuration : ℚ
  minDistance : ℚ
  maxStationaryTime : ℚ
  sessionEndTimeout : ℚ
  deriving DecidableEq, Repr

/-- The default conditions installed by the detector's constructor. -/
def defaultConditions : DrivingConditions :=
  { minSpeed := 5, minDuration := 60, minDistance := 200,
    maxStationaryTime := 120, sessionEndTimeout := 300 }

/-- The mutable fields of the DrivingDetector singleton. -/
structure DetectorData where
  state : DrivingDetectorState
  locationHistory : List LocationData
  drivingStartTime : Option Int
  stationaryStartTime : Option Int
  deriving DecidableEq, Repr

/-- The per-call result record (`DrivingDetectorResult`). -/
structure DrivingDetectorResult where
  state : DrivingDetectorState
  confidence : ℚ
  currentSpeed : ℚ
  averageSpeed : ℚ
  distanceTraveled : ℚ
  drivingDuration : ℚ
  stationaryDuration : ℚ
  deriving DecidableEq, Repr

/-- JS falsiness of a `number | null` timestamp: both `null` and `0`. -/
def isFalsyTime : Option Int → Bool
  | none => true
  | some t => t == 0

namespace DrivingDetector

/-- `reset()` / the freshly-constructed detector. -/
def reset : DetectorData :=
  { state := DrivingDetectorState.idle, locationHistory := [],
    drivingStartTime := none, stationaryStartTime := none }

/-- `getResult`: durations from the (truthy) markers, average of the positive
speeds in the retained history, and the confidence score. -/
def getResult (c : DrivingConditions) (st : DetectorData) (latest : LocationData) :
    DrivingDetectorResult :=
  let drivingDuration : ℚ :=
    if isFalsyTime st.drivingStartTime then 0
    else ((latest.timestamp - st.drivingStartTime.getD 0 : ℤ) : ℚ) / 1000
  let stationaryDuration : ℚ :=
    if isFalsyTime st.stationaryStartTime then 0
    else ((latest.timestamp - st.stationaryStartTime.getD 0 : ℤ) : ℚ) / 1000
  let speeds := (st.locationHistory.map (fun l => l.speed.getD 0)).filter
    (fun s => decide (0 < s))
  let averageSpeed : ℚ :=
    if 0 < speeds.length then speeds.sum / (speeds.length : ℚ) else 0
  let confidence : ℚ :=
    if st.state = DrivingDetectorState.driving then
      min 1 (drivingDuration / (c.minDuration * 2))
    else if st.state = DrivingDetectorState.detecting then
      drivingDuration / c.minDuration
    else 0
  { state := st.state
    confidence := confidence
    currentSpeed := latest.speed.getD 0
    averageSpeed := averageSpeed
    distanceTraveled := 0
    drivingDuration := drivingDuration
    stationaryDuration := stationaryDuration }

/-- `processLocation`: append to the history, evict entries older than five
minutes before `now` (`Date.now()` of the call, passed explicitly), then run
the moving / stationary state machine.  The `number | null` markers are
tested with JS falsiness (`isFalsyTime`). -/
def processLocation (c : DrivingConditions) (now : Int) (st : DetectorData)
    (location : LocationData) : DetectorData × DrivingDetectorResult :=
  let fiveMinutesAgo : Int := now - 300000
  let hist := (st.locationHistory ++ [location]).filter
    (fun l => decide (fiveMinutesAgo < l.timestamp))
  let currentSpeed : ℚ := location.speed.getD 0
  let st1 := { st with locationHistory := hist }
  if c.minSpeed ≤ currentSpeed then
    let st2 := { st1 with stationaryStartTime := none }
    let st3 :=
      if isFalsyTime st2.drivingStartTime then
        { st2 with
          drivingStartTime := some location.timestamp
          state := DrivingDetectorState.detecting }
      else st2
    let drivingDuration : ℚ :=
      ((location.timestamp - st3.drivingStartTime.getD 0 : ℤ) : ℚ) / 1000
    let st4 :=
      if c.minDuration ≤ drivingDuration then
        { st3 with state := DrivingDetectorState.driving }
      else st3
    (st4, getResult c st4 location)
  else
    let st2 :=
      if isFalsyTime st1.stationaryStartTime then
        { st1 with stationaryStartTime := some location.timestamp }
      else st1
    let stationaryDuration : ℚ :=
      ((location.timestamp - st2.stationaryStartTime.getD 0 : ℤ) : ℚ) / 1000
    let st3 :=
      if c.maxStationaryTime ≤ stationaryDuration then
        { st2 with state := DrivingDetectorState.stationary }
      else st2
    (st3, getResult c st3 location)

end DrivingDetector

/-- Feed a list of `(Date.now(), sample)` pairs through the detector. -/
def runDet (c : DrivingConditions) (st : DetectorData)
    (ps : List (Int × LocationData)) : DetectorData :=
  ps.foldl (fun s p => (DrivingDetector.processLocation c p.1 s p.2).1) st

/-- A moving sample processed while the driving-start marker holds a truthy
(nonzero) timestamp keeps the marker and promotes the state to `driving`
exactly when the elapsed time reaches `minDuration`. -/
theorem processLocation_moving_state (c : DrivingConditions) (now : Int) (st : DetectorData)
    (loc : LocationData) (ts0 : Int)
    (hmv : c.minSpeed ≤ loc.speed.getD 0) (hd : st.drivingStartTime = some ts0)
    (h0 : ts0 ≠ 0) :
    (DrivingDetector.processLocation c now st loc).1.state =
      (if c.minDuration ≤ ((loc.timestamp - ts0 : ℤ) : ℚ) / 1000
       then DrivingDetectorState.driving else st.state) ∧
    (DrivingDetector.processLocation c now st loc).1.drivingStartTime = some ts0 := by
  have hfal : isFalsyTime (some ts0) = false := by
    simp [isFalsyTime, h0]
  simp only [DrivingDetector.processLocation]
  rw [if_pos hmv]
  simp only [hd, hfal, Bool.false_eq_true, if_false, Option.getD_some]
  by_cases hD : c.minDuration ≤ ((loc.timestamp - ts0 : ℤ) : ℚ) / 1000
  · rw [if_pos hD, if_pos hD]
    exact ⟨rfl, rfl⟩
  · rw [if_neg hD, if_neg hD]
    exact ⟨rfl, rfl⟩

/-- The first moving sample processed from the fresh detector installs the
driving-start marker at that sample's timestamp and enters `detecting`
(or `driving` immediately when `minDuration ≤ 0`). -/
theorem processLocation_first_moving (c : DrivingConditions) (now : Int) (loc : LocationData)
    (hmv : c.minSpeed ≤ loc.speed.getD 0) :
    (DrivingDetector.processLocation c now DrivingDetector.reset loc).1.state =
      (if c.minDuration ≤ ((loc.timestamp - loc.timestamp : ℤ) : ℚ) / 1000
       then DrivingDetectorState.driving else DrivingDetectorState.detecting) ∧
    (DrivingDetector.processLocation c now DrivingDetector.reset loc).1.drivingStartTime
      = some loc.timestamp := by
  simp only [DrivingDetector.processLocation, DrivingDetector.reset]
  rw [if_pos hmv]
  simp only [isFalsyTime, if_true, Option.getD_some]
  by_cases hD : c.minDuration ≤ ((loc.timestamp - loc.timestamp : ℤ) : ℚ) / 1000
  · rw [if_pos hD, if_pos hD]
    exact ⟨rfl, rfl⟩
  · rw [if_neg hD, if_neg hD]
    exact ⟨rfl, rfl⟩

/-- Elapsed-time monotonicity for the `minDuration` guard. -/
theorem durationGuard_mono {a b ts0 : Int} (h : a ≤ b) {D : ℚ}
    (hD : D ≤ ((a - ts0 : ℤ) : ℚ) / 1000) : D ≤ ((b - ts0 : ℤ) : ℚ) / 1000 := by
  have hq : ((a - ts0 : ℤ) : ℚ) ≤ ((b - ts0 : ℤ) : ℚ) := by
    exact_mod_cast sub_le_sub_right h ts0
  linarith

/-- Invariant run of the detector over an all-moving suffix: the marker stays
at `ts0` and the state tracks whether the last timestamp has reached
`minDuration` past `ts0`. -/
theorem runDet_moving_inv (c : DrivingConditions) (ts0 : Int) (h0 : ts0 ≠ 0)
    (q : List (Int × LocationData)) :
    ∀ (st : DetectorData) (pLast : Int × LocationData),
      st.drivingStartTime = some ts0 →
      st.state = (if c.minDuration ≤ ((pLast.2.timestamp - ts0 : ℤ) : ℚ) / 1000
        then DrivingDetectorState.driving else DrivingDetectorState.detecting) →
      (∀ p ∈ q, c.minSpeed ≤ p.2.speed.getD 0) →
      List.Chain (fun a b : Int × LocationData => a.2.timestamp ≤ b.2.timestamp) pLast q →
      (runDet c st q).state =
        (if c.minDuration ≤ (((q.getLastD pLast).2.timestamp - ts0 : ℤ) : ℚ) / 1000
         then DrivingDetectorState.driving else DrivingDetectorState.detecting) ∧
      (runDet c st q).drivingStartTime = some ts0 := by
  induction q with
  | nil =>
      intro st pLast hmark hstate _ _
      exact ⟨by simpa [runDet] using hstate, by simpa [runDet] using hmark⟩
  | cons p rest ih =>
      intro st pLast hmark hstate hmv hchain
      rw [List.chain_cons] at hchain
      obtain ⟨hle, hchain'⟩ := hchain
      have hstep := processLocation_moving_state c p.1 st p.2 ts0
        (hmv p (by simp)) hmark h0
      have hstate' : (DrivingDetector.processLocation c p.1 st p.2).1.state =
          (if c.minDuration ≤ ((p.2.timestamp - ts0 : ℤ) : ℚ) / 1000
           then DrivingDetectorState.driving else DrivingDetectorState.detecting) := by
        rw [hstep.1, hstate]
        by_cases hD : c.minDuration ≤ ((p.2.timestamp - ts0 : ℤ) : ℚ) / 1000
        · rw [if_pos hD, if_pos hD]
        · have hDlast : ¬ c.minDuration ≤ ((pLast.2.timestamp - ts0 : ℤ) : ℚ) / 1000 :=
            fun hc => hD (durationGuard_mono hle hc)
          rw [if_neg hD, if_neg hD, if_neg hDlast]
      have hrest : ∀ r ∈ rest, c.minSpeed ≤ r.2.speed.getD 0 :=
        fun r hr => hmv r (by simp [hr])
      have hres := ih (DrivingDetector.processLocation c p.1 st p.2).1 p
        hstep.2 hstate' hrest hchain'
      have hfold : runDet c st (p :: rest) =
          runDet c (DrivingDetector.processLocation c p.1 st p.2).1 rest := by
        rw [runDet, runDet, List.foldl_cons]
      rw [List.getLastD_cons, hfold]
      exact hres

/-- A minimal concrete location sample used in concrete evaluations. -/
def mkSample (t : Int) (v : ℚ) : LocationData :=
  { latitude := 0, longitude := 0, altitude := none, accuracy := none,
    speed := some v, heading := none, timestamp := t }

set_option allowUnsafeReducibility true

attribute [semireducible] Rat.mul Rat.inv

/-- Counterexample to C2 as stated: with the default conditions and sustained
speed 6 m/s from timestamp 0, the second sample arrives exactly
`minDuration` (60 s) after the start of motion, yet the detector is still
`detecting` — the JS falsy test `!this.drivingStartTime` treats the marker
value 0 as unset and restarts detection on the second sample. -/
theorem c2_counterexample :
    (∀ p ∈ [((0 : Int), mkSample 0 6), ((0 : Int), mkSample 60000 6)],
      defaultConditions.minSpeed ≤ p.2.speed.getD 0) ∧
    defaultConditions.minDuration ≤
      (((mkSample 60000 6).timestamp - (mkSample 0 6).timestamp : ℤ) : ℚ) / 1000 ∧
    (runDet defaultConditions DrivingDetector.reset
      [((0 : Int), mkSample 0 6), ((0 : Int), mkSample 60000 6)]).state ≠
      DrivingDetectorState.driving := by
  refine ⟨by decide, by decide, by decide⟩

/-- C2 (amended): from a fresh detector, over a stream whose samples all move
at `minSpeed` or faster, whose timestamps are nondecreasing and whose first
timestamp is nonzero (the JS falsy marker test treats 0 as unset), the state
observed after each processed sample is `driving` exactly when that sample's
timestamp is at least `minDuration` seconds after the first sample's
timestamp, and `detecting` (never `driving`) strictly before that. -/
theorem c2_sustained_motion_reaches_driving (c : DrivingConditions)
    (l0 : Int × LocationData) (rest : List (Int × LocationData))
    (hmv : ∀ p ∈ l0 :: rest, c.minSpeed ≤ p.2.speed.getD 0)
    (h0 : l0.2.timestamp ≠ 0)
    (hmono : List.Chain' (fun a b : Int × LocationData => a.2.timestamp ≤ b.2.timestamp)
      (l0 :: rest))
    (pre post : List (Int × LocationData)) (x : Int × LocationData)
    (hsplit : l0 :: rest = pre ++ x :: post) :
    (runDet c DrivingDetector.reset (pre ++ [x])).state =
      (if c.minDuration ≤ ((x.2.timestamp - l0.2.timestamp : ℤ) : ℚ) / 1000
       then DrivingDetectorState.driving else DrivingDetectorState.detecting) := by
  cases pre with
  | nil =>
      simp only [List.nil_append] at hsplit
      injection hsplit with hx hpost
      subst hx
      have hbase := processLocation_first_moving c l0.1 l0.2 (hmv l0 (by simp))
      have hfold : runDet c DrivingDetector.reset [l0] =
          (DrivingDetector.processLocation c l0.1 DrivingDetector.reset l0.2).1 := by
        rw [runDet, List.foldl_cons, List.foldl_nil]
      rw [List.nil_append, hfold]
      exact hbase.1
  | cons y pre' =>
      rw [List.cons_append] at hsplit
      injection hsplit with hy hrest
      subst hy
      subst hrest
      have hch : List.Chain (fun a b : Int × LocationData => a.2.timestamp ≤ b.2.timestamp)
          l0 (pre' ++ x :: post) := hmono
      rw [List.chain_split] at hch
      have hbase := processLocation_first_moving c l0.1 l0.2 (hmv l0 (by simp))
      have hq : ∀ p ∈ pre' ++ [x], c.minSpeed ≤ p.2.speed.getD 0 := by
        intro p hp
        rcases List.mem_append.mp hp with h | h
        · exact hmv p (by simp [h])
        · have : p = x := by simpa using h
          subst this
          exact hmv p (by simp)
      have hinv := runDet_moving_inv c l0.2.timestamp h0 (pre' ++ [x])
        (DrivingDetector.processLocation c l0.1 DrivingDetector.reset l0.2).1 l0
        hbase.2 hbase.1 hq hch.1
      have hlast : (pre' ++ [x]).getLastD l0 = x := List.getLastD_concat _ _ _
      have hfold : runDet c DrivingDetector.reset ((l0 :: pre') ++ [x]) =
          runDet c (DrivingDetector.processLocation c l0.1 DrivingDetector.reset l0.2).1
            (pre' ++ [x]) := by
        rw [List.cons_append, runDet, runDet, List.foldl_cons]
      rw [hfold]
      rw [hlast] at hinv
      exact hinv.1

/-- Witness for C2 at a concrete stream: speed 6 m/s at timestamps 1000 ms
and 61000 ms; at the second sample (exactly 60 s later) the state is
`driving`. -/
theorem c2_sustained_motion_reaches_driving_witness :
    (∀ p ∈ [((0 : Int), mkSample 1000 6), ((0 : Int), mkSample 61000 6)],
      defaultConditions.minSpeed ≤ p.2.speed.getD 0) ∧
    (mkSample 1000 6).timestamp ≠ 0 ∧
    (runDet defaultConditions DrivingDetector.reset
        [((0 : Int), mkSample 1000 6), ((0 : Int), mkSample 61000 6)]).state =
      DrivingDetectorState.driving := by
  refine ⟨by decide, by decide, ?_⟩
  have h := c2_sustained_motion_reaches_driving defaultConditions
    ((0 : Int), mkSample 1000 6) [((0 : Int), mkSample 61000 6)]
    (by decide) (by decide)
    (by simp [List.chain'_cons, List.chain'_singleton, mkSample])
    [((0 : Int), mkSample 1000 6)] [] ((0 : Int), mkSample 61000 6) (by decide)
  simp only [List.singleton_append] at h
  rw [h]
  decide

/-- Counterexample to C3 as stated: drive for 60 s (state `driving`), stand
still for 120 s (state `stationary`), then a single moving sample at
t = 183 s puts the detector straight back into `driving` — the stationary
branch never clears the stale driving-start marker from t = 1 s. -/
theorem c3_counterexample :
    (runDet defaultConditions DrivingDetector.reset
      [((0 : Int), mkSample 1000 6), ((0 : Int), mkSample 61000 6),
       ((0 : Int), mkSample 62000 0), ((0 : Int), mkSample 182000 0)]).state =
      DrivingDetectorState.stationary ∧
    defaultConditions.minSpeed ≤ (mkSample 183000 6).speed.getD 0 ∧
    (DrivingDetector.processLocation defaultConditions 0
      (runDet defaultConditions DrivingDetector.reset
        [((0 : Int), mkSample 1000 6), ((0 : Int), mkSample 61000 6),
         ((0 : Int), mkSample 62000 0), ((0 : Int), mkSample 182000 0)])
      (mkSample 183000 6)).1.state = DrivingDetectorState.driving := by
  refine ⟨by decide, by decide, by decide⟩

/-- C3 (amended): from `stationary`, a single moving sample transitions the
detector directly to `driving` only through a stale driving-start marker;
when the marker is unset (JS-falsy: null or 0) the moving branch re-marks at
the current sample and enters `detecting`, and (for positive `minDuration`)
not `driving`. -/
theorem c3_stationary_needs_redetection (c : DrivingConditions) (now : Int)
    (st : DetectorData) (loc : LocationData)
    (_hstat : st.state = DrivingDetectorState.stationary)
    (hmark : isFalsyTime st.drivingStartTime = true)
    (hmv : c.minSpeed ≤ loc.speed.getD 0)
    (hD : 0 < c.minDuration) :
    (DrivingDetector.processLocation c now st loc).1.state =
      DrivingDetectorState.detecting ∧
    (DrivingDetector.processLocation c now st loc).1.drivingStartTime =
      some loc.timestamp := by
  simp only [DrivingDetector.processLocation]
  rw [if_pos hmv]
  simp only [hmark, if_true, Option.getD_some, sub_self, Int.cast_zero, zero_div]
  rw [if_neg (not_le.mpr hD)]
  exact ⟨rfl, rfl⟩

/-- Witness for the amended C3: a detector standing in `stationary` with an
unset marker, fed a moving sample, lands in `detecting`. -/
theorem c3_stationary_needs_redetection_witness :
    ({ state := DrivingDetectorState.stationary, locationHistory := [],
       drivingStartTime := none, stationaryStartTime := some 100 } :
        DetectorData).state = DrivingDetectorState.stationary ∧
    (DrivingDetector.processLocation defaultConditions 0
      { state := DrivingDetectorState.stationary, locationHistory := [],
        drivingStartTime := none, stationaryStartTime := some 100 }
      (mkSample 200000 6)).1.state = DrivingDetectorState.detecting :=
  ⟨by decide,
    (c3_stationary_needs_redetection defaultConditions 0
      { state := DrivingDetectorState.stationary, locationHistory := [],
        drivingStartTime := none, stationaryStartTime := some 100 }
      (mkSample 200000 6) (by decide) (by decide) (by decide) (by decide)).1⟩

/-- A Bluetooth device (`BluetoothDevice`); the name is its code-point list. -/
structure BluetoothDevice where
  id : String
  name : List Nat
  isCarDevice : Bool
  signalStrength : Option ℚ
  lastSeen : Int
  deriving DecidableEq, Repr

/-- The orchestrator's coarse status (`DriveSentryStatus`). -/
inductive DriveSentryStatus where
  | idle
  | monitoring
  | detecting
  | driving
  | paused
  | error
  deriving DecidableEq, Repr

/-- GPS feed accuracy mode (`TrackingMode`). -/
inductive TrackingMode where
  | monitoring
  | driving
  | paused
  deriving DecidableEq, Repr

/-- Events emitted to subscribers (`DriveSentryEvent`). -/
inductive DSEvent where
  | locationUpdate (location : LocationData)
  | drivingDetected
  | drivingPaused
  | sessionStarted (session : DriveSession)
  | sessionEnded (session : DriveSession)
  | bluetoothConnected (device : BluetoothDevice)
  | bluetoothDisconnected (device : BluetoothDevice)
  | errorEvent

/-- Event classifier: is this a SESSION_ENDED event? -/
def DSEvent.isSessionEnded : DSEvent → Bool
  | DSEvent.sessionEnded _ => true
  | _ => false

/-- Event classifier: is this a SESSION_STARTED event? -/
def DSEvent.isSessionStarted : DSEvent → Bool
  | DSEvent.sessionStarted _ => true
  | _ => false

/-- The mutable state of the DriveSentry orchestrator, with the two listener
dependencies abstracted to what the orchestrator reads or writes of them:
whether a car device is connected (read from BluetoothListener) and the GPS
tracking mode (written to GPSListener). -/
structure OrchState where
  status : DriveSentryStatus
  det : DetectorData
  sm : SMState
  gpsMode : TrackingMode
  carConnected : Bool

/-- The outcome of one orchestrator entry point: the new state, the events
emitted (in order, to every subscriber), and a pending JS error, i.e. an
exception propagating out of the handler or an unhandled promise rejection
of an un-awaited async call. -/
structure OrchStep where
  state : OrchState
  events : List DSEvent
  err : Option String

namespace DriveSentry

/-- `handleDrivingDetected`: set status driving, emit DRIVING_DETECTED, pick
the trigger (bluetooth if a car is connected, else gps with the sample),
start a session, emit SESSION_STARTED, upgrade the feed.  The body runs
un-awaited from `handleLocationUpdate`, so a `startSession` throw surfaces
as an unhandled rejection after the first two steps took effect. -/
noncomputable def handleDrivingDetected (st : OrchState) (location : LocationData)
    (sid : String) (now : Int) : OrchStep :=
  let st1 := { st with status := DriveSentryStatus.driving }
  let trigger :=
    if st.carConnected then SessionTrigger.bluetooth "unknown" "Car"
    else SessionTrigger.gps location
  match SessionManager.startSession st1.sm trigger sid now with
  | Except.error e => { state := st1, events := [DSEvent.drivingDetected], err := some e }
  | Except.ok (session, sm') =>
      { state := { st1 with sm := sm', gpsMode := TrackingMode.driving }
        events := [DSEvent.drivingDetected, DSEvent.sessionStarted session]
        err := none }

/-- `handleDrivingPaused`: set status paused, emit DRIVING_PAUSED, pause the
session, downgrade the feed.  `pauseSession` throwing propagates out after
the first two steps took effect. -/
def handleDrivingPaused (st : OrchState) : OrchStep :=
  let st1 := { st with status := DriveSentryStatus.paused }
  match SessionManager.pauseSession st1.sm with
  | Except.error e => { state := st1, events := [DSEvent.drivingPaused], err := some e }
  | Except.ok sm' =>
      { state := { st1 with sm := sm', gpsMode := TrackingMode.paused }
        events := [DSEvent.drivingPaused]
        err := none }

/-- `handleLocationUpdate`: broadcast LOCATION_UPDATE, feed the detector,
then dispatch on the detector state. -/
noncomputable def handleLocationUpdate (c : DrivingConditions) (st : OrchState)
    (location : LocationData) (sid : String) (now : Int) : OrchStep :=
  let pr := DrivingDetector.processLocation c now st.det location
  let st1 := { st with det := pr.1 }
  match pr.2.state with
  | DrivingDetectorState.driving =>
      if st1.status ≠ DriveSentryStatus.driving then
        let s := handleDrivingDetected st1 location sid now
        { s with events := DSEvent.locationUpdate location :: s.events }
      else if SessionManager.isSessionActive st1.sm then
        { state := { st1 with sm := SessionManager.addWaypoint st1.sm location }
          events := [DSEvent.locationUpdate location]
          err := none }
      else
        { state := st1, events := [DSEvent.locationUpdate location], err := none }
  | DrivingDetectorState.stationary =>
      if st1.status = DriveSentryStatus.driving then
        let s := handleDrivingPaused st1
        { s with events := DSEvent.locationUpdate location :: s.events }
      else
        { state := st1, events := [DSEvent.locationUpdate location], err := none }
  | _ => { state := st1, events := [DSEvent.locationUpdate location], err := none }

/-- `stop()`: end any active session with a manual trigger, tear down both
feeds, reset the detector, set status idle.  A throw inside the try-block is
re-raised after an ERROR event is emitted. -/
noncomputable def stop (st : OrchState) (now : Int) : OrchStep :=
  if SessionManager.isSessionActive st.sm then
    match SessionManager.endSession st.sm SessionTrigger.manual now with
    | Except.error e => { state := st, events := [DSEvent.errorEvent], err := some e }
    | Except.ok (_, sm') =>
        { state :=
            { st with
              sm := sm'
              det := DrivingDetector.reset
              status := DriveSentryStatus.idle }
          events := []
          err := none }
  else
    { state :=
        { st with
          det := DrivingDetector.reset
          status := DriveSentryStatus.idle }
      events := []
      err := none }

/-- `handleCarConnected`: always emit BLUETOOTH_CONNECTED; from monitoring
or idle, move to detecting and upgrade the feed. -/
def handleCarConnected (st : OrchState) (device : BluetoothDevice) : OrchStep :=
  if st.status = DriveSentryStatus.monitoring ∨ st.status = DriveSentryStatus.idle then
    { state :=
        { st with
          status := DriveSentryStatus.detecting
          gpsMode := TrackingMode.driving }
      events := [DSEvent.bluetoothConnected device]
      err := none }
  else
    { state := st, events := [DSEvent.bluetoothConnected device], err := none }

/-- `handleCarDisconnected`: always emit BLUETOOTH_DISCONNECTED; when status
is driving with an active session, end it with the bluetooth trigger, emit
SESSION_ENDED, return to monitoring and downgrade the feed. -/
noncomputable def handleCarDisconnected (st : OrchState) (device : BluetoothDevice)
    (now : Int) : OrchStep :=
  if st.status = DriveSentryStatus.driving ∧ SessionManager.isSessionActive st.sm then
    match SessionManager.endSession st.sm
        (SessionTrigger.bluetooth device.id (String.mk (device.name.map Char.ofNat))) now with
    | Except.error e =>
        { state := st, events := [DSEvent.bluetoothDisconnected device], err := some e }
    | Except.ok (session, sm') =>
        { state :=
            { st with
              sm := sm'
              status := DriveSentryStatus.monitoring
              gpsMode := TrackingMode.monitoring }
          events := [DSEvent.bluetoothDisconnected device, DSEvent.sessionEnded session]
          err := none }
  else
    { state := st, events := [DSEvent.bluetoothDisconnected device], err := none }

end DriveSentry

/-- `calculateStats` only writes the three statistics fields; `endTrigger`
is untouched. -/
theorem calculateStats_endTrigger (s : DriveSession) (ws : List Waypoint) :
    (SessionManager.calculateStats s ws).endTrigger = s.endTrigger := by
  simp only [SessionManager.calculateStats]
  split
  · rfl
  · split <;> rfl

/-- `calculateStats` leaves `status` untouched. -/
theorem calculateStats_status (s : DriveSession) (ws : List Waypoint) :
    (SessionManager.calculateStats s ws).status = s.status := by
  simp only [SessionManager.calculateStats]
  split
  · rfl
  · split <;> rfl

/-- `calculateStats` leaves `waypointCount` untouched. -/
theorem calculateStats_waypointCount (s : DriveSession) (ws : List Waypoint) :
    (SessionManager.calculateStats s ws).waypointCount = s.waypointCount := by
  simp only [SessionManager.calculateStats]
  split
  · rfl
  · split <;> rfl

/-- Unfolding `endSession` when a session is present. -/
theorem endSession_ok (st : SMState) (sess : DriveSession)
    (h : st.currentSession = some sess) (trig : SessionTrigger) (now : Int) :
    SessionManager.endSession st trig now =
      Except.ok
        (SessionManager.calculateStats
          { sess with
            endTime := some now
            endTrigger := some trig
            status := SessionStatus.completed
            waypointCount := st.waypoints.length }
          st.waypoints,
        { currentSession := none, waypoints := [] }) := by
  simp [SessionManager.endSession, h]

/-- An active manager state holds some session. -/
theorem isSessionActive_some (st : SMState)
    (hact : SessionManager.isSessionActive st = true) :
    ∃ s, st.currentSession = some s := by
  cases h : st.currentSession with
  | none => simp [SessionManager.isSessionActive, h] at hact
  | some s => exact ⟨s, rfl⟩

/-- C5 (amended): `stop()` while a session is active ends that session with
a manual trigger (the completed copy carries `endTrigger.type = manual`),
clears the manager, resets the detector and sets status `idle` — but it
emits no event at all, in particular no SESSION_ENDED. -/
theorem c5_stop_ends_session_without_event (st : OrchState) (now : Int)
    (hact : SessionManager.isSessionActive st.sm = true) :
    ∃ s sm', SessionManager.endSession st.sm SessionTrigger.manual now = Except.ok (s, sm') ∧
      s.endTrigger = some SessionTrigger.manual ∧
      s.status = SessionStatus.completed ∧
      DriveSentry.stop st now =
        { state :=
            { st with
              sm := sm'
              det := DrivingDetector.reset
              status := DriveSentryStatus.idle }
          events := []
          err := none } ∧
      sm'.currentSession = none := by
  obtain ⟨sess, hsome⟩ := isSessionActive_some st.sm hact
  have hend := endSession_ok st.sm sess hsome SessionTrigger.manual now
  refine ⟨_, _, hend, ?_, ?_, ?_, rfl⟩
  · rw [calculateStats_endTrigger]
  · rw [calculateStats_status]
  · simp [DriveSentry.stop, hact, hend]

/-- Concrete active session for the C5 scenario. -/
def c5Session : DriveSession :=
  { id := "s5", startTime := 0, endTime := none, status := SessionStatus.active,
    startTrigger := SessionTrigger.manual, endTrigger := none,
    totalDistance := 0, totalDuration := 0, averageSpeed := 0, maxSpeed := 0,
    waypointCount := 0 }

/-- Concrete orchestrator state with an active session, mid-drive. -/
def c5State : OrchState :=
  { status := DriveSentryStatus.driving
    det := DrivingDetector.reset
    sm := { currentSession := some c5Session, waypoints := [] }
    gpsMode := TrackingMode.driving
    carConnected := true }

/-- Counterexample to C5 as stated: `stop()` on a state with an active
session emits zero SESSION_ENDED events (it emits nothing), not exactly
one. -/
theorem c5_counterexample :
    SessionManager.isSessionActive c5State.sm = true ∧
    (DriveSentry.stop c5State 99000).events.countP DSEvent.isSessionEnded = 0 ∧
    (DriveSentry.stop c5State 99000).state.status = DriveSentryStatus.idle := by
  refine ⟨by decide, ?_, ?_⟩
  · have h := c5_stop_ends_session_without_event c5State 99000 (by decide)
    obtain ⟨s, sm', _, _, _, hstop, _⟩ := h
    rw [hstop]
    simp [List.countP, List.countP.go]
  · have h := c5_stop_ends_session_without_event c5State 99000 (by decide)
    obtain ⟨s, sm', _, _, _, hstop, _⟩ := h
    rw [hstop]

/-- Witness for the amended C5 at the concrete mid-drive state. -/
theorem c5_stop_ends_session_without_event_witness :
    SessionManager.isSessionActive c5State.sm = true ∧
    (∃ s sm',
      SessionManager.endSession c5State.sm SessionTrigger.manual 99000 =
        Except.ok (s, sm') ∧
      s.endTrigger = some SessionTrigger.manual ∧
      s.status = SessionStatus.completed ∧
      DriveSentry.stop c5State 99000 =
        { state :=
            { c5State with
              sm := sm'
              det := DrivingDetector.reset
              status := DriveSentryStatus.idle }
          events := []
          err := none } ∧
      sm'.currentSession = none) :=
  ⟨by decide, c5_stop_ends_session_without_event c5State 99000 (by decide)⟩

/-- C8: a Bluetooth disconnect handled while status is `driving` with an
active session ends that session with the bluetooth trigger carrying the
device's id and name, emits exactly the pair
[BLUETOOTH_DISCONNECTED, SESSION_ENDED] (so exactly one SESSION_ENDED),
moves status to `monitoring` and downgrades the feed; handled in any other
status, it changes neither session nor status and emits only
BLUETOOTH_DISCONNECTED. -/
theorem c8_disconnect_while_driving (st : OrchState) (device : BluetoothDevice)
    (now : Int)
    (hdrive : st.status = DriveSentryStatus.driving)
    (hact : SessionManager.isSessionActive st.sm = true) :
    (∃ s sm',
      SessionManager.endSession st.sm
          (SessionTrigger.bluetooth device.id (String.mk (device.name.map Char.ofNat))) now =
        Except.ok (s, sm') ∧
      s.endTrigger = some (SessionTrigger.bluetooth device.id
        (String.mk (device.name.map Char.ofNat))) ∧
      s.status = SessionStatus.completed ∧
      sm'.currentSession = none ∧
      DriveSentry.handleCarDisconnected st device now =
        { state :=
            { st with
              sm := sm'
              status := DriveSentryStatus.monitoring
              gpsMode := TrackingMode.monitoring }
          events := [DSEvent.bluetoothDisconnected device, DSEvent.sessionEnded s]
          err := none }) ∧
    (∀ st2 : OrchState, st2.status ≠ DriveSentryStatus.driving →
      DriveSentry.handleCarDisconnected st2 device now =
        { state := st2, events := [DSEvent.bluetoothDisconnected device], err := none }) := by
  constructor
  · obtain ⟨sess, hsome⟩ := isSessionActive_some st.sm hact
    have hend := endSession_ok st.sm sess hsome
      (SessionTrigger.bluetooth device.id (String.mk (device.name.map Char.ofNat))) now
    refine ⟨_, _, hend, ?_, ?_, rfl, ?_⟩
    · rw [calculateStats_endTrigger]
    · rw [calculateStats_status]
    · simp [DriveSentry.handleCarDisconnected, hdrive, hact, hend]
  · intro st2 hne
    have hcond : ¬ (st2.status = DriveSentryStatus.driving ∧
        SessionManager.isSessionActive st2.sm) := fun hc => hne hc.1
    simp only [DriveSentry.handleCarDisconnected, if_neg hcond]

/-- A concrete Bluetooth device for the Bluetooth-disconnect scenarios. -/
def exDevice : BluetoothDevice :=
  { id := "dev1", name := [77, 121, 32, 67, 97, 114], isCarDevice := true,
    signalStrength := none, lastSeen := 0 }

/-- Witness for C8 at the concrete mid-drive state `c5State`. -/
theorem c8_disconnect_while_driving_witness :
    c5State.status = DriveSentryStatus.driving ∧
    SessionManager.isSessionActive c5State.sm = true ∧
    ((∃ s sm',
      SessionManager.endSession c5State.sm
          (SessionTrigger.bluetooth exDevice.id
            (String.mk (exDevice.name.map Char.ofNat))) 99000 =
        Except.ok (s, sm') ∧
      s.endTrigger = some (SessionTrigger.bluetooth exDevice.id
        (String.mk (exDevice.name.map Char.ofNat))) ∧
      s.status = SessionStatus.completed ∧
      sm'.currentSession = none ∧
      DriveSentry.handleCarDisconnected c5State exDevice 99000 =
        { state :=
            { c5State with
              sm := sm'
              status := DriveSentryStatus.monitoring
              gpsMode := TrackingMode.monitoring }
          events := [DSEvent.bluetoothDisconnected exDevice, DSEvent.sessionEnded s]
          err := none }) ∧
    (∀ st2 : OrchState, st2.status ≠ DriveSentryStatus.driving →
      DriveSentry.handleCarDisconnected st2 exDevice 99000 =
        { state := st2, events := [DSEvent.bluetoothDisconnected exDevice], err := none })) :=
  ⟨by decide, by decide,
    c8_disconnect_while_driving c5State exDevice 99000 (by decide) (by decide)⟩

/-- The paused session sitting in the manager for the C4 scenario. -/
def c4Session : DriveSession :=
  { id := "s4", startTime := 0, endTime := none, status := SessionStatus.paused,
    startTrigger := SessionTrigger.manual, endTrigger := none,
    totalDistance := 0, totalDuration := 0, averageSpeed := 0, maxSpeed := 0,
    waypointCount := 0 }

/-- Orchestrator paused mid-trip: status `paused`, a paused session, and a
detector whose driving-start marker (1000 ms) is 60 s in the past. -/
def c4State : OrchState :=
  { status := DriveSentryStatus.paused
    det :=
      { state := DrivingDetectorState.detecting, locationHistory := [],
        drivingStartTime := some 1000, stationaryStartTime := none }
    sm := { currentSession := some c4Session, waypoints := [] }
    gpsMode := TrackingMode.paused
    carConnected := false }

/-- C4 is a code bug: from status `paused` with a paused session, a sample
that makes the detector report `driving` routes into
`handleDrivingDetected`, which sets status `driving`, emits
DRIVING_DETECTED and then calls `startSession` — which necessarily throws
InvalidState because the paused session is non-completed.  The paused
session is neither resumed nor replaced, no SESSION_STARTED is emitted, and
the error escapes as an unhandled rejection. -/
theorem c4_paused_to_driving_is_broken :
    c4State.status = DriveSentryStatus.paused ∧
    c4State.sm.currentSession.map DriveSession.status = some SessionStatus.paused ∧
    (DriveSentry.handleLocationUpdate defaultConditions c4State (mkSample 61000 6)
      "s-new" 61000).err = some ("Cannot start new session while one is active") ∧
    (DriveSentry.handleLocationUpdate defaultConditions c4State (mkSample 61000 6)
      "s-new" 61000).state.status = DriveSentryStatus.driving ∧
    (DriveSentry.handleLocationUpdate defaultConditions c4State (mkSample 61000 6)
      "s-new" 61000).state.sm = c4State.sm ∧
    (DriveSentry.handleLocationUpdate defaultConditions c4State (mkSample 61000 6)
      "s-new" 61000).events.countP DSEvent.isSessionStarted = 0 := by
  exact ⟨by decide, rfl, by decide, by decide, rfl, by decide⟩

/-- ASCII case folding on a code point, modelling the case-insensitivity of
the `/pattern/i` regexes (all patterns are plain ASCII words). -/
def lowerChar (n : Nat) : Nat :=
  if 65 ≤ n ∧ n ≤ 90 then n + 32 else n

/-- Code-point list of an ASCII string literal. -/
def strCodes (s : String) : List Nat :=
  s.toList.map Char.toNat

/-- Contiguous-subsequence (substring) test on code-point lists. -/
def containsSeq (pat s : List Nat) : Bool :=
  s.tails.any (fun t => pat.isPrefixOf t)

/-- A tag's origin (`CarDevice.type`). -/
inductive TagOrigin where
  | auto
  | manual
  deriving DecidableEq, Repr

/-- A tagged car-device record (`CarDevice`). -/
structure CarDevice where
  id : String
  name : List Nat
  type : TagOrigin
  lastConnected : Option Int
  createdAt : Int
  deriving DecidableEq, Repr

/-- The manual-tag map of the CarBluetoothMatcher (a `Map` keyed by device
id, modelled as an association list with the newest entry in front). -/
structure MatcherState where
  manuallyTaggedDevices : List (String × CarDevice)
  deriving DecidableEq, Repr

namespace CarBluetoothMatcher

/-- The fixed pattern list of `matchesCarPattern` (`CAR_BLUETOOTH_PATTERNS`),
as lowercase code-point words. -/
def carPatterns : List (List Nat) :=
  [strCodes ("car"), strCodes ("auto"), strCodes ("sync"), strCodes ("carplay"),
   strCodes ("android auto"), strCodes ("handsfree"), strCodes ("vehicle"),
   strCodes ("honda"), strCodes ("toyota"), strCodes ("ford"), strCodes ("bmw"),
   strCodes ("mercedes"), strCodes ("audi"), strCodes ("volkswagen"),
   strCodes ("chevrolet"), strCodes ("nissan"), strCodes ("hyundai"),
   strCodes ("kia"), strCodes ("mazda"), strCodes ("subaru"),
   strCodes ("lexus"), strCodes ("jeep"), strCodes ("tesla")]

/-- `matchesCarPattern`: some pattern occurs case-insensitively in the name. -/
def matchesCarPattern (deviceName : List Nat) : Bool :=
  carPatterns.any (fun pat => containsSeq pat (deviceName.map lowerChar))

/-- `Map.has` / `Map.get` on the tag map. -/
def tagLookup (m : MatcherState) (id : String) : Option CarDevice :=
  m.manuallyTaggedDevices.lookup id

/-- `isCarDevice`: manual tag by id wins; otherwise fall back to patterns. -/
def isCarDevice (m : MatcherState) (device : BluetoothDevice) : Bool :=
  if (tagLookup m device.id).isSome then true
  else matchesCarPattern device.name

/-- `tagAsCarDevice`: insert/overwrite a manual record for the device. -/
def tagAsCarDevice (m : MatcherState) (device : BluetoothDevice) (now : Int) :
    CarDevice × MatcherState :=
  let carDevice : CarDevice :=
    { id := device.id, name := device.name, type := TagOrigin.manual,
      lastConnected := some now, createdAt := now }
  (carDevice,
    { manuallyTaggedDevices :=
        (device.id, carDevice) ::
          m.manuallyTaggedDevices.filter (fun p => p.1 != device.id) })

/-- `untagCarDevice`: `Map.delete`, reporting whether a record existed. -/
def untagCarDevice (m : MatcherState) (id : String) : Bool × MatcherState :=
  ((tagLookup m id).isSome,
    { manuallyTaggedDevices := m.manuallyTaggedDevices.filter (fun p => p.1 != id) })

end CarBluetoothMatcher

/-- Looking a key up after filtering out every pair with that key gives
nothing. -/
theorem lookup_filter_ne (l : List (String × CarDevice)) (id : String) :
    (l.filter (fun p => p.1 != id)).lookup id = none := by
  induction l with
  | nil => rfl
  | cons p rest ih =>
      by_cases h : p.1 = id
      · simp [List.filter_cons, h, ih]
      · have hne : (p.1 != id) = true := by simpa using h
        have hbeq : (id == p.1) = false :=
          beq_eq_false_iff_ne.mpr (fun hc => h hc.symm)
        simp [List.filter_cons, hne, List.lookup, hbeq, ih]

/-- ASCII case folding is idempotent. -/
theorem lowerChar_idem (n : Nat) : lowerChar (lowerChar n) = lowerChar n := by
  unfold lowerChar
  split_ifs <;> omega

/-- C9: a manual tag makes `isCarDevice` true regardless of the name;
`untagCarDevice` reports exactly whether a tag existed and removes it, after
which `isCarDevice` for that id coincides with `matchesCarPattern` of the
name; and `matchesCarPattern` is case-insensitive (invariant under
lowercasing the name). -/
theorem c9_matcher_tagging (m : MatcherState) (device d2 : BluetoothDevice)
    (id : String) (now : Int)
    (hid : d2.id = id) :
    CarBluetoothMatcher.isCarDevice
      (CarBluetoothMatcher.tagAsCarDevice m device now).2 device = true ∧
    (CarBluetoothMatcher.untagCarDevice m id).1 =
      (CarBluetoothMatcher.tagLookup m id).isSome ∧
    CarBluetoothMatcher.isCarDevice (CarBluetoothMatcher.untagCarDevice m id).2 d2 =
      CarBluetoothMatcher.matchesCarPattern d2.name ∧
    (∀ name : List Nat, CarBluetoothMatcher.matchesCarPattern name =
      CarBluetoothMatcher.matchesCarPattern (name.map lowerChar)) := by
  refine ⟨?_, rfl, ?_, ?_⟩
  · simp [CarBluetoothMatcher.isCarDevice, CarBluetoothMatcher.tagAsCarDevice,
      CarBluetoothMatcher.tagLookup, List.lookup]
  · have hnone : CarBluetoothMatcher.tagLookup
        (CarBluetoothMatcher.untagCarDevice m id).2 d2.id = none := by
      rw [hid]
      exact lookup_filter_ne m.manuallyTaggedDevices id
    simp [CarBluetoothMatcher.isCarDevice, hnone]
  · intro name
    have hmap : (name.map lowerChar).map lowerChar = name.map lowerChar := by
      rw [List.map_map]
      exact List.map_congr_left (fun n _ => lowerChar_idem n)
    simp only [CarBluetoothMatcher.matchesCarPattern, hmap]

/-- A tag map holding one unrelated manual tag. -/
def exMatcher : MatcherState :=
  { manuallyTaggedDevices :=
      [("other",
        { id := "other"
          name := strCodes ("speaker")
          type := TagOrigin.manual
          lastConnected := none
          createdAt := 0 })] }

/-- Witness for C9 at a concrete map and devices. -/
theorem c9_matcher_tagging_witness :
    exDevice.id = "dev1" ∧
    (CarBluetoothMatcher.isCarDevice
      (CarBluetoothMatcher.tagAsCarDevice exMatcher exDevice 7).2 exDevice = true ∧
    (CarBluetoothMatcher.untagCarDevice exMatcher "dev1").1 =
      (CarBluetoothMatcher.tagLookup exMatcher "dev1").isSome ∧
    CarBluetoothMatcher.isCarDevice
        (CarBluetoothMatcher.untagCarDevice exMatcher "dev1").2 exDevice =
      CarBluetoothMatcher.matchesCarPattern exDevice.name ∧
    (∀ name : List Nat, CarBluetoothMatcher.matchesCarPattern name =
      CarBluetoothMatcher.matchesCarPattern (name.map lowerChar))) :=
  ⟨by decide, c9_matcher_tagging exMatcher exDevice exDevice "dev1" 7 (by decide)⟩

/-- Spec-side formulation of the distance statistic: the sum of haversine
distances between each consecutive waypoint pair in arrival order. -/
noncomputable def pairwiseHavSum (ws : List Waypoint) : ℝ :=
  ((ws.zip ws.tail).map
    (fun p => haversineDistance p.1.toLocationData p.2.toLocationData)).sum

/-- The accumulation loop of `calculateStats` computes exactly the
consecutive-pair sum. -/
theorem sumConsecDist_eq_pairwise (ws : List Waypoint) :
    SessionManager.sumConsecDist ws = pairwiseHavSum ws := by
  induction ws with
  | nil => simp [SessionManager.sumConsecDist, pairwiseHavSum]
  | cons a rest ih =>
      cases rest with
      | nil => simp [SessionManager.sumConsecDist, pairwiseHavSum]
      | cons b r =>
          have hstep : SessionManager.sumConsecDist (a :: b :: r) =
              haversineDistance a.toLocationData b.toLocationData +
                SessionManager.sumConsecDist (b :: r) := rfl
          rw [hstep, ih]
          simp [pairwiseHavSum, List.zip_cons_cons]

/-- C6: for a session ended with at least two recorded waypoints,
`endSession` reports totalDuration = (endTime − startTime)/1000 seconds,
totalDistance = the consecutive-pair haversine sum, and averageSpeed =
distance / duration when the duration is positive (0, its initial value,
otherwise); with fewer than two waypoints the three statistics keep their
initialized zero values and `endSession` still succeeds. -/
theorem c6_end_session_statistics (sm : SMState) (sess : DriveSession)
    (trig : SessionTrigger) (now : Int)
    (hsome : sm.currentSession = some sess)
    (hz : sess.totalDistance = 0 ∧ sess.totalDuration = 0 ∧ sess.averageSpeed = 0) :
    ∃ r, SessionManager.endSession sm trig now =
        Except.ok (r, { currentSession := none, waypoints := [] }) ∧
      r.status = SessionStatus.completed ∧
      (2 ≤ sm.waypoints.length →
        r.totalDuration = ((now - sess.startTime : ℤ) : ℚ) / 1000 ∧
        r.totalDistance = pairwiseHavSum sm.waypoints ∧
        r.averageSpeed =
          (if 0 < ((now - sess.startTime : ℤ) : ℚ) / 1000
           then pairwiseHavSum sm.waypoints /
             ((((now - sess.startTime : ℤ) : ℚ) / 1000 : ℚ) : ℝ)
           else 0)) ∧
      (sm.waypoints.length < 2 →
        r.totalDistance = 0 ∧ r.totalDuration = 0 ∧ r.averageSpeed = 0) := by
  have hend := endSession_ok sm sess hsome trig now
  refine ⟨_, hend, ?_, ?_, ?_⟩
  · rw [calculateStats_status]
  · intro h2
    have hn2 : ¬ (sm.waypoints.length < 2) := by omega
    simp only [SessionManager.calculateStats, hn2, if_false]
    rw [sumConsecDist_eq_pairwise]
    by_cases hd : 0 < ((now - sess.startTime : ℤ) : ℚ) / 1000
    · simp only [hd, if_true, if_pos hd]
      simp
    · simp only [hd, if_false, if_neg hd]
      simp [hz.2.2]
  · intro h2
    simp only [SessionManager.calculateStats, h2, if_pos]
    exact ⟨hz.1, hz.2.1, hz.2.2⟩

/-- Concrete session for the statistics scenario. -/
def c6Session : DriveSession :=
  { id := "s6", startTime := 0, endTime := none, status := SessionStatus.active,
    startTrigger := SessionTrigger.manual, endTrigger := none,
    totalDistance := 0, totalDuration := 0, averageSpeed := 0, maxSpeed := 0,
    waypointCount := 0 }

/-- Manager state holding `c6Session` and two waypoints 0.01° of longitude
apart, 100 s apart in time. -/
def c6SM : SMState :=
  { currentSession := some c6Session
    waypoints :=
      [{ toLocationData :=
          { latitude := 0, longitude := 0, altitude := none, accuracy := none,
            speed := some 10, heading := none, timestamp := 0 }
         id := 1
         sessionId := "s6" },
       { toLocationData :=
          { latitude := 0, longitude := 1 / 100, altitude := none, accuracy := none,
            speed := some 10, heading := none, timestamp := 100000 }
         id := 2
         sessionId := "s6" }] }

/-- Witness for C6: ending `c6SM` 100 s in computes the statistics. -/
theorem c6_end_session_statistics_witness :
    c6SM.currentSession = some c6Session ∧
    2 ≤ c6SM.waypoints.length ∧
    (∃ r, SessionManager.endSession c6SM SessionTrigger.manual 100000 =
        Except.ok (r, { currentSession := none, waypoints := [] }) ∧
      r.status = SessionStatus.completed ∧
      (2 ≤ c6SM.waypoints.length →
        r.totalDuration = ((100000 - c6Session.startTime : ℤ) : ℚ) / 1000 ∧
        r.totalDistance = pairwiseHavSum c6SM.waypoints ∧
        r.averageSpeed =
          (if 0 < ((100000 - c6Session.startTime : ℤ) : ℚ) / 1000
           then pairwiseHavSum c6SM.waypoints /
             ((((100000 - c6Session.startTime : ℤ) : ℚ) / 1000 : ℚ) : ℝ)
           else 0)) ∧
      (c6SM.waypoints.length < 2 →
        r.totalDistance = 0 ∧ r.totalDuration = 0 ∧ r.averageSpeed = 0)) :=
  ⟨rfl, by decide,
    c6_end_session_statistics c6SM c6Session SessionTrigger.manual 100000 rfl
      ⟨rfl, rfl, rfl⟩⟩

/-- Whether an operation is one of the mid-session calls
(pause / resume / addWaypoint). -/
def SMOp.isIntermediate : SMOp → Bool
  | SMOp.pauseOp => true
  | SMOp.resumeOp => true
  | SMOp.addOp _ => true
  | _ => false

/-- The acceptance condition of `addWaypoint`: a session is present with
status exactly `active`. -/
def sessionStatusActive (st : SMState) : Bool :=
  match st.currentSession with
  | some s => decide (s.status = SessionStatus.active)
  | none => false

/-- The contribution of one operation to the accepted-waypoint count: 1 for
an `addWaypoint` call arriving while the status is exactly `active`. -/
def opAccepted (st : SMState) : SMOp → Nat
  | SMOp.addOp _ => if sessionStatusActive st then 1 else 0
  | _ => 0

/-- How many `addWaypoint` calls of the operation list are accepted, i.e.
arrive while the session status is exactly `active`. -/
noncomputable def acceptedCount : SMState → List SMOp → Nat
  | _, [] => 0
  | st, op :: rest => opAccepted st op + acceptedCount (applyOp st op) rest

/-- One mid-session operation grows the waypoint list exactly by its
accepted `addWaypoint` calls and keeps a session present. -/
theorem applyOp_intermediate (st : SMState) (op : SMOp)
    (hop : op.isIntermediate = true) :
    (applyOp st op).waypoints.length = st.waypoints.length + opAccepted st op ∧
    (applyOp st op).currentSession.isSome = st.currentSession.isSome := by
  cases op with
  | startOp trigger sid now => simp [SMOp.isIntermediate] at hop
  | endOp trigger now => simp [SMOp.isIntermediate] at hop
  | pauseOp =>
      refine ⟨?_, ?_⟩ <;>
      · cases h : st.currentSession with
        | none => simp [applyOp, SessionManager.pauseSession, opAccepted, h]
        | some s =>
            by_cases hs : s.status = SessionStatus.active <;>
              simp [applyOp, SessionManager.pauseSession, opAccepted, h, hs]
  | resumeOp =>
      refine ⟨?_, ?_⟩ <;>
      · cases h : st.currentSession with
        | none => simp [applyOp, SessionManager.resumeSession, opAccepted, h]
        | some s =>
            by_cases hs : s.status = SessionStatus.paused <;>
              simp [applyOp, SessionManager.resumeSession, opAccepted, h, hs]
  | addOp loc =>
      refine ⟨?_, ?_⟩ <;>
      · cases h : st.currentSession with
        | none =>
            simp [applyOp, SessionManager.addWaypoint, opAccepted, sessionStatusActive, h]
        | some s =>
            by_cases hs : s.status = SessionStatus.active
            · cases hv : loc.speed with
              | none =>
                  simp [applyOp, SessionManager.addWaypoint, opAccepted,
                    sessionStatusActive, h, hs]
              | some v =>
                  by_cases hgt : v ≠ 0 ∧ s.maxSpeed < v <;>
                    simp [applyOp, SessionManager.addWaypoint, opAccepted,
                      sessionStatusActive, h, hs, hv, hgt]
            · simp [applyOp, SessionManager.addWaypoint, opAccepted,
                sessionStatusActive, h, hs]

/-- Running mid-session operations: the waypoint list grows by exactly the
accepted `addWaypoint` calls, and a present session stays present. -/
theorem runOps_intermediate (ops : List SMOp)
    (hops : ∀ op ∈ ops, op.isIntermediate = true) :
    ∀ st : SMState,
      (runOps st ops).waypoints.length = st.waypoints.length + acceptedCount st ops ∧
      (runOps st ops).currentSession.isSome = st.currentSession.isSome := by
  induction ops with
  | nil => intro st; simp [runOps, acceptedCount]
  | cons op rest ih =>
      intro st
      have hstep := applyOp_intermediate st op (hops op (by simp))
      have hrest : ∀ o ∈ rest, o.isIntermediate = true := fun o ho => hops o (by simp [ho])
      have hih := ih hrest (applyOp st op)
      constructor
      · have hfold : runOps st (op :: rest) = runOps (applyOp st op) rest := by
          rw [runOps, runOps, List.foldl_cons]
        have hacc : acceptedCount st (op :: rest) =
            opAccepted st op + acceptedCount (applyOp st op) rest := rfl
        rw [hfold, hih.1, hstep.1, hacc]
        omega
      · have hfold : runOps st (op :: rest) = runOps (applyOp st op) rest := by
          rw [runOps, runOps, List.foldl_cons]
        rw [hfold, hih.2, hstep.2]

/-- A successful `startSession` yields the fresh session and the cleared
manager state. -/
theorem startSession_ok_state (st : SMState) (trigger : SessionTrigger)
    (sid : String) (now : Int) (s0 : DriveSession) (st0 : SMState)
    (h : SessionManager.startSession st trigger sid now = Except.ok (s0, st0)) :
    s0 = SessionManager.mkSession trigger sid now ∧ st0 = startedState trigger sid now := by
  cases hc : st.currentSession with
  | none =>
      simp only [SessionManager.startSession, hc] at h
      injection h with h1
      injection h1 with h2 h3
      exact ⟨h2.symm, h3.symm⟩
  | some s =>
      simp only [SessionManager.startSession, hc] at h
      by_cases hs : s.status ≠ SessionStatus.completed
      · rw [if_pos hs] at h
        cases h
      · rw [if_neg hs] at h
        injection h with h1
        injection h1 with h2 h3
        exact ⟨h2.symm, h3.symm⟩

/-- C7: after a successful `startSession` and any sequence of mid-session
operations (pause / resume / addWaypoint), `endSession` succeeds and reports
`waypointCount` equal to the number of `addWaypoint` calls accepted while
the status was exactly `active`; `addWaypoint` appends a waypoint with
ordinal id = (count before the call) + 1 when the session status is exactly
`active` and is a silent no-op otherwise. -/
theorem c7_waypoint_count (sm : SMState) (trig trig' : SessionTrigger) (sid : String)
    (now now' : Int) (ops : List SMOp) (s0 : DriveSession) (st0 : SMState)
    (hstart : SessionManager.startSession sm trig sid now = Except.ok (s0, st0))
    (hops : ∀ op ∈ ops, op.isIntermediate = true) :
    (∃ r st', SessionManager.endSession (runOps st0 ops) trig' now' = Except.ok (r, st') ∧
      r.waypointCount = acceptedCount st0 ops) ∧
    (∀ (st2 : SMState) (s2 : DriveSession) (loc : LocationData),
      st2.currentSession = some s2 → s2.status = SessionStatus.active →
      (SessionManager.addWaypoint st2 loc).waypoints =
        st2.waypoints ++
          [{ toLocationData := loc, id := st2.waypoints.length + 1, sessionId := s2.id }]) ∧
    (∀ (st2 : SMState) (loc : LocationData), sessionStatusActive st2 = false →
      SessionManager.addWaypoint st2 loc = st2) := by
  refine ⟨?_, ?_, ?_⟩
  · obtain ⟨hs0, hst0⟩ := startSession_ok_state sm trig sid now s0 st0 hstart
    subst hst0
    have hrun := runOps_intermediate ops hops (startedState trig sid now)
    obtain ⟨sess, hsome⟩ : ∃ s, (runOps (startedState trig sid now) ops).currentSession =
        some s := by
      have : (runOps (startedState trig sid now) ops).currentSession.isSome = true := by
        rw [hrun.2]
        rfl
      cases h : (runOps (startedState trig sid now) ops).currentSession with
      | none => rw [h] at this; simp at this
      | some s => exact ⟨s, rfl⟩
    have hend := endSession_ok (runOps (startedState trig sid now) ops) sess hsome trig' now'
    refine ⟨_, _, hend, ?_⟩
    rw [calculateStats_waypointCount]
    have hlen := hrun.1
    simpa [startedState] using hlen
  · intro st2 s2 loc hsome2 hact2
    simp [SessionManager.addWaypoint, hsome2, hact2]
  · intro st2 loc hinactive
    cases h : st2.currentSession with
    | none => simp [SessionManager.addWaypoint, h]
    | some s =>
        have hs : ¬ s.status = SessionStatus.active := by
          simp [sessionStatusActive, h] at hinactive
          exact hinactive
        simp [SessionManager.addWaypoint, h, hs]

/-- Witness for C7: start, then add / pause / add / resume / add — the
middle add arrives while paused and is rejected, so two are accepted. -/
theorem c7_waypoint_count_witness :
    SessionManager.startSession SessionManager.smInit SessionTrigger.manual "s7" 0 =
      Except.ok (SessionManager.mkSession SessionTrigger.manual "s7" 0,
        startedState SessionTrigger.manual "s7" 0) ∧
    acceptedCount (startedState SessionTrigger.manual "s7" 0)
      [SMOp.addOp (mkSample 10 6), SMOp.pauseOp, SMOp.addOp (mkSample 20 6),
       SMOp.resumeOp, SMOp.addOp (mkSample 30 6)] = 2 ∧
    (∃ r st', SessionManager.endSession
        (runOps (startedState SessionTrigger.manual "s7" 0)
          [SMOp.addOp (mkSample 10 6), SMOp.pauseOp, SMOp.addOp (mkSample 20 6),
           SMOp.resumeOp, SMOp.addOp (mkSample 30 6)]) SessionTrigger.manual 50 =
        Except.ok (r, st') ∧
      r.waypointCount = acceptedCount (startedState SessionTrigger.manual "s7" 0)
        [SMOp.addOp (mkSample 10 6), SMOp.pauseOp, SMOp.addOp (mkSample 20 6),
         SMOp.resumeOp, SMOp.addOp (mkSample 30 6)]) :=
  ⟨rfl, by decide,
    (c7_waypoint_count SessionManager.smInit SessionTrigger.manual SessionTrigger.manual
      "s7" 0 50
      [SMOp.addOp (mkSample 10 6), SMOp.pauseOp, SMOp.addOp (mkSample 20 6),
       SMOp.resumeOp, SMOp.addOp (mkSample 30 6)]
      (SessionManager.mkSession SessionTrigger.manual "s7" 0)
      (startedState SessionTrigger.manual "s7" 0) rfl
      (by intro op hop; fin_cases hop <;> decide)).1⟩

/-- C10: `endSession` succeeds whenever a session exists — paused or active —
and behaves identically on both (its sole failure condition is the absence
of a session); `pauseSession` and `resumeSession` rewrite only the session's
`status` field, leaving every other session field and the waypoint list
unchanged. -/
theorem c10_end_session_ignores_pause (sm : SMState) (sess : DriveSession)
    (trig : SessionTrigger) (now : Int)
    (hsome : sm.currentSession = some sess) :
    (∃ r st', SessionManager.endSession sm trig now = Except.ok (r, st')) ∧
    (SessionManager.endSession
        { sm with currentSession := some { sess with status := SessionStatus.paused } }
        trig now =
      SessionManager.endSession
        { sm with currentSession := some { sess with status := SessionStatus.active } }
        trig now) ∧
    (∀ sm2 : SMState, sm2.currentSession = none →
      SessionManager.endSession sm2 trig now = Except.error ("No session to end")) ∧
    (sess.status = SessionStatus.active →
      SessionManager.pauseSession sm =
        Except.ok
          { sm with currentSession := some { sess with status := SessionStatus.paused } }) ∧
    (sess.status = SessionStatus.paused →
      SessionManager.resumeSession sm =
        Except.ok
          { sm with currentSession := some { sess with status := SessionStatus.active } }) := by
  refine ⟨⟨_, _, endSession_ok sm sess hsome trig now⟩, rfl, ?_, ?_, ?_⟩
  · intro sm2 h2
    simp [SessionManager.endSession, h2]
  · intro hact
    simp [SessionManager.pauseSession, hsome, hact]
  · intro hpaused
    simp [SessionManager.resumeSession, hsome, hpaused]

/-- Witness for C10 at a concrete paused session (`c4Session`): ending it
directly succeeds, and `resumeSession` flips only the status. -/
theorem c10_end_session_ignores_pause_witness :
    c4State.sm.currentSession = some c4Session ∧
    c4Session.status = SessionStatus.paused ∧
    ((∃ r st', SessionManager.endSession c4State.sm SessionTrigger.manual 70000 =
        Except.ok (r, st')) ∧
    (SessionManager.endSession
        { c4State.sm with
          currentSession := some { c4Session with status := SessionStatus.paused } }
        SessionTrigger.manual 70000 =
      SessionManager.endSession
        { c4State.sm with
          currentSession := some { c4Session with status := SessionStatus.active } }
        SessionTrigger.manual 70000) ∧
    (∀ sm2 : SMState, sm2.currentSession = none →
      SessionManager.endSession sm2 SessionTrigger.manual 70000 =
        Except.error ("No session to end")) ∧
    (c4Session.status = SessionStatus.active →
      SessionManager.pauseSession c4State.sm =
        Except.ok
          { c4State.sm with
            currentSession := some { c4Session with status := SessionStatus.paused } }) ∧
    (c4Session.status = SessionStatus.paused →
      SessionManager.resumeSession c4State.sm =
        Except.ok
          { c4State.sm with
            currentSession := some { c4Session with status := SessionStatus.active } })) :=
  ⟨rfl, by decide,
    c10_end_session_ignores_pause c4State.sm c4Session SessionTrigger.manual 70000 rfl⟩
